import Mathlib

set_option linter.unnecessarySeqFocus false

/-
Shallow embedding of the MB85RC FRAM driver (src/src/mb85rc.rs).

Machine integers are modelled as Nat / Int with explicit truncation:
`x as u8` is `x % 256`, `x as u16` is `x % 65536`, u32 arithmetic is
reduced `% 2^32`, and the `u64 -> i64` cast / i64 wrapping addition is
`toI64` (two's-complement wrap).  The generic I2C transport is modelled
as a pair of functions returning `Except String _` (the String is the
transport error's rendering used by `format!`), and every driver
operation additionally returns the list of bus transactions it issued,
so that "issues exactly one transaction" properties are statable.
-/

namespace Mb85rc

/-- Two's-complement wrap into the i64 range, used for the `as i64`
cast and (release-mode) wrapping i64 addition. -/
def toI64 (n : Int) : Int :=
  (n + 9223372036854775808) % 18446744073709551616 - 9223372036854775808

/-- A bus transaction as seen on the wire: either a plain write of
`bytes` to the 7-bit peripheral address `addr`, or a combined
write-then-read of `out` followed by reading `readLen` bytes. -/
inductive Transaction where
  | wr (addr : Nat) (bytes : List Nat)
  | writeRead (addr : Nat) (out : List Nat) (readLen : Nat)
deriving DecidableEq

/-- The external I2C transport (embedded_hal `i2c::Write + i2c::WriteRead`):
`busWrite` issues a plain write, `busWriteRead` a combined
write-then-read returning the bytes read.  Errors are rendered Strings. -/
structure I2CBus where
  busWrite : Nat → List Nat → Except String Unit
  busWriteRead : Nat → List Nat → Nat → Except String (List Nat)

/-- Error type `Mb85rcError` (mb85rc.rs line 195). -/
structure Mb85rcError where
  details : String
deriving DecidableEq

/-- `std::io::ErrorKind` values used by the driver. -/
inductive ErrorKind where
  | unexpectedEof
  | invalidInput
  | other
deriving DecidableEq

/-- `std::io::Error` as constructed by `io::Error::new(kind, msg)`. -/
structure IoError where
  kind : ErrorKind
  msg : String
deriving DecidableEq

/-- The construction failure: `MB85RC::new` panics when auto-detection
fails (mb85rc.rs line 30); the panic is modelled as a fatal
construction error. -/
inductive ConstructionError where
  | identificationFailure
deriving DecidableEq

instance {ε α : Type} [DecidableEq ε] [DecidableEq α] : DecidableEq (Except ε α) := fun x y =>
  match x, y with
  | .ok a, .ok b =>
      if h : a = b then .isTrue (by rw [h])
      else .isFalse (by intro hh; cases hh; exact h rfl)
  | .ok _, .error _ => .isFalse (by intro hh; cases hh)
  | .error _, .ok _ => .isFalse (by intro hh; cases hh)
  | .error a, .error b =>
      if h : a = b then .isTrue (by rw [h])
      else .isFalse (by intro hh; cases hh; exact h rfl)

/-- The driver state `MB85RC` (mb85rc.rs lines 10-15), minus the owned
transport, which is passed explicitly to each operation.
`device_addr` is a u8, `device_size` a u32, `cursor` a u16. -/
structure MB85RC where
  device_addr : Nat
  device_size : Nat
  cursor : Nat
deriving DecidableEq

/-- `SeekFrom` with `Start : u64`, `Current : i64`, `End : i64`. -/
inductive SeekFrom where
  | start (p : Nat)
  | current (p : Int)
  | fromEnd (p : Int)
deriving DecidableEq

/-- `MB85RC::fram_read` (mb85rc.rs lines 48-57): one combined
write-then-read of the 2-byte big-endian address prefix, reading
`bufLen` bytes (the caller's buffer length); returns `buf.len()` on
success, a wrapped I2C error otherwise. -/
def fram_read (self : MB85RC) (bus : I2CBus) (addr : Nat) (bufLen : Nat) :
    Except Mb85rcError Nat × List Transaction :=
  let addr_hi := (addr >>> 8) % 256
  let addr_lo := addr % 256
  let addr_buf := [addr_hi, addr_lo]
  (match bus.busWriteRead self.device_addr addr_buf bufLen with
   | .ok _ => .ok bufLen
   | .error e => .error ⟨"I2C Error: " ++ e⟩,
   [.writeRead self.device_addr addr_buf bufLen])

/-- `MB85RC::fram_write` (mb85rc.rs lines 60-70): one plain write whose
payload is the 2-byte big-endian address prefix concatenated with
`buf`; returns `buf.len()` on success. -/
def fram_write (self : MB85RC) (bus : I2CBus) (addr : Nat) (buf : List Nat) :
    Except Mb85rcError Nat × List Transaction :=
  let addr_hi := (addr >>> 8) % 256
  let addr_lo := addr % 256
  let addr_buf := [addr_hi, addr_lo]
  let write_buf := addr_buf ++ buf
  (match bus.busWrite self.device_addr write_buf with
   | .ok _ => .ok buf.length
   | .error e => .error ⟨"I2C Error: " ++ e⟩,
   [.wr self.device_addr write_buf])

/-- `MB85RC::read_metadata` (mb85rc.rs lines 72-81): write the single
byte `addr << 1` to the reserved peripheral `0xF8 >> 1` and read 3
bytes back.  The 3-byte `read_buf` starts zeroed, so the result triple
takes the transport's bytes with default 0. -/
def read_metadata (bus : I2CBus) (addr : Nat) :
    Except Mb85rcError (Nat × Nat × Nat) × List Transaction :=
  let write_buf := [(addr <<< 1) % 256]
  (match bus.busWriteRead (0xF8 >>> 1) write_buf 3 with
   | .ok r => .ok (r.getD 0 0, r.getD 1 0, r.getD 2 0)
   | .error e => .error ⟨"I2C Error: " ++ e⟩,
   [.writeRead (0xF8 >>> 1) write_buf 3])

/-- `MB85RC::new` (mb85rc.rs lines 23-45): use the supplied size, or
auto-detect via `read_metadata`; `size = (1 << (meta[1] & 0xF)) * 1024`
in u32 arithmetic; the cursor starts at 0.  Auto-detection failure
panics (modelled as a construction error). -/
def new (bus : I2CBus) (device_addr : Nat) (size : Option Nat) :
    Except ConstructionError MB85RC × List Transaction :=
  match size with
  | some s => (.ok ⟨device_addr, s, 0⟩, [])
  | none =>
      match read_metadata bus device_addr with
      | (.ok meta, tr) =>
          (.ok ⟨device_addr, ((1 <<< (meta.2.1 % 16)) * 1024) % 4294967296, 0⟩, tr)
      | (.error _, tr) => (.error .identificationFailure, tr)

/-- `MB85RC::fram_size` (mb85rc.rs lines 84-86). -/
def fram_size (self : MB85RC) : Nat :=
  self.device_size

/-- `<MB85RC as Seek>::seek` (mb85rc.rs lines 89-126).  Returns the
`io::Result<u64>` together with the updated state.  `p as i64` and the
i64 addition wrap via `toI64`; `as u16` truncates `% 65536`. -/
def seek (self : MB85RC) (pos : SeekFrom) : Except IoError Nat × MB85RC :=
  match pos with
  | .start p =>
      let new_cursor : Int := toI64 p
      if (self.device_size : Int) ≤ new_cursor then
        (.error ⟨.unexpectedEof, "Cannot seek past device memory size"⟩, self)
      else
        (.ok (p % 65536), { self with cursor := p % 65536 })
  | .current p =>
      let new_cursor : Int := toI64 ((self.cursor : Int) + p)
      if new_cursor < 0 then
        (.error ⟨.invalidInput, "Invalid argument (position would be negative)"⟩, self)
      else
        (.ok (new_cursor % 65536).toNat, { self with cursor := (new_cursor % 65536).toNat })
  | .fromEnd p =>
      let new_cursor : Int := toI64 ((self.cursor : Int) + p)
      if new_cursor < 0 then
        (.error ⟨.invalidInput, "Invalid argument (position would be negative)"⟩, self)
      else if (self.device_size : Int) ≤ new_cursor then
        (.error ⟨.unexpectedEof, "Cannot seek past device memory size"⟩, self)
      else
        (.ok (new_cursor % 65536).toNat, { self with cursor := (new_cursor % 65536).toNat })

/-- `<MB85RC as Read>::read` (mb85rc.rs lines 134-136): delegates to
`fram_read` at the current cursor; the state is returned unchanged
because the method assigns no field. -/
def stream_read (self : MB85RC) (bus : I2CBus) (bufLen : Nat) :
    (Except IoError Nat × MB85RC) × List Transaction :=
  let r := fram_read self bus self.cursor bufLen
  ((r.1.mapError fun e => ⟨.other, e.details⟩, self), r.2)

/-- `<MB85RC as Write>::write` (mb85rc.rs lines 145-147): delegates to
`fram_write` at the current cursor; the state is returned unchanged
because the method assigns no field. -/
def stream_write (self : MB85RC) (bus : I2CBus) (buf : List Nat) :
    (Except IoError Nat × MB85RC) × List Transaction :=
  let r := fram_write self bus self.cursor buf
  ((r.1.mapError fun e => ⟨.other, e.details⟩, self), r.2)

/-- `<MB85RC as Write>::flush` (mb85rc.rs lines 149-152): always `Ok(())`,
touches nothing, issues no transaction. -/
def flush (self : MB85RC) : (Except IoError Unit × MB85RC) × List Transaction :=
  ((.ok (), self), [])

/-- `Builder` (mb85rc.rs lines 156-159). -/
structure Builder where
  device_addr : Nat
  device_size : Option Nat
deriving DecidableEq

/-- `Builder::new` (mb85rc.rs lines 163-168): default address 0x50, no size. -/
def Builder.make : Builder :=
  ⟨0x50, none⟩

/-- `Builder::with_address` (mb85rc.rs lines 171-174). -/
def Builder.with_address (self : Builder) (address : Nat) : Builder :=
  { self with device_addr := address }

/-- `Builder::with_size` (mb85rc.rs lines 177-180). -/
def Builder.with_size (self : Builder) (size : Nat) : Builder :=
  { self with device_size := some size }

/-- `Builder::connect_i2c` (mb85rc.rs lines 183-190). -/
def Builder.connect_i2c (self : Builder) (bus : I2CBus) :
    Except ConstructionError MB85RC × List Transaction :=
  new bus self.device_addr self.device_size

/-- A transport on which every transaction succeeds, reading back zeros. -/
def okBus : I2CBus :=
  ⟨fun _ _ => .ok (), fun _ _ n => .ok (List.replicate n 0)⟩

/-- A transport on which every transaction fails. -/
def failBus : I2CBus :=
  ⟨fun _ _ => .error "NACK", fun _ _ _ => .error "NACK"⟩

/-- A transport whose combined transactions read back the identification
bytes `[0x04, 0xA5, 0x10]` (byte1 = 0xA5, low nibble 0x5). -/
def metaBus : I2CBus :=
  ⟨fun _ _ => .ok (), fun _ _ _ => .ok [0x04, 0xA5, 0x10]⟩

/-- `toI64` is the identity on values already in the i64 range. -/
theorem toI64_eq_self (n : Int) (h1 : -9223372036854775808 ≤ n)
    (h2 : n < 9223372036854775808) : toI64 n = n := by
  unfold toI64
  omega

/-- C1: the claim says a successful StreamWrite / StreamRead of n bytes
advances the cursor from c to c + n.  The code never assigns the cursor
in either method: at cursor 0, a successful 4-byte stream write returns
Ok(4) and leaves the cursor at 0, not 4 (and stream read likewise). -/
theorem c1_stream_ops_do_not_advance_cursor :
    (stream_write ⟨0x50, 32768, 0⟩ okBus [1, 2, 3, 4]).1 = (.ok 4, ⟨0x50, 32768, 0⟩) ∧
    (stream_read ⟨0x50, 32768, 0⟩ okBus 4).1 = (.ok 4, ⟨0x50, 32768, 0⟩) ∧
    ((stream_write ⟨0x50, 32768, 0⟩ okBus [1, 2, 3, 4]).1.2.cursor ≠ 0 + 4) := by
  refine ⟨rfl, rfl, by decide⟩

/-- C2: the claim says SeekFromEnd(delta) targets capacity_bytes + delta,
so from any cursor, SeekFromEnd(-1) on a 32768-byte device should set the
cursor to 32767.  The code's End branch adds delta to the CURRENT CURSOR
instead of the capacity: at cursor 0 it computes 0 + (-1) < 0 and fails
with InvalidInput, leaving the cursor at 0. -/
theorem c2_seek_from_end_uses_cursor_not_capacity :
    seek ⟨0x50, 32768, 0⟩ (.fromEnd (-1)) =
      (.error ⟨.invalidInput, "Invalid argument (position would be negative)"⟩,
       ⟨0x50, 32768, 0⟩) ∧
    seek ⟨0x50, 32768, 100⟩ (.fromEnd 0) = (.ok 100, ⟨0x50, 32768, 100⟩) := by
  refine ⟨by decide, by decide⟩

/-- C3 counterexample: the claim says relative seek fails with OutOfRange
when c + delta ≥ capacity_bytes; but the code's Current branch performs
no upper-bound check, so from cursor 0 on a 32768-byte device,
SeekRelative(32768) succeeds and sets the cursor to 32768. -/
theorem c3_relative_seek_no_upper_bound :
    seek ⟨0x50, 32768, 0⟩ (.current 32768) = (.ok 32768, ⟨0x50, 32768, 32768⟩) := by
  decide

/-- C3 amended: relative seek computes c + delta in signed 64-bit
arithmetic; when the (unwrapped) sum is negative it fails with
InvalidArgument and leaves the state unchanged; otherwise it succeeds,
setting the cursor to the sum truncated to 16 bits — there is no
upper-bound (OutOfRange) check against the capacity. -/
theorem c3_relative_seek_spec (h : MB85RC) (d : Int)
    (hlo : -9223372036854775808 ≤ (h.cursor : Int) + d)
    (hhi : (h.cursor : Int) + d < 9223372036854775808) :
    ((h.cursor : Int) + d < 0 →
      seek h (.current d) =
        (.error ⟨.invalidInput, "Invalid argument (position would be negative)"⟩, h)) ∧
    (0 ≤ (h.cursor : Int) + d →
      seek h (.current d) =
        (.ok (((h.cursor : Int) + d) % 65536).toNat,
         { h with cursor := (((h.cursor : Int) + d) % 65536).toNat })) := by
  have ht : toI64 ((h.cursor : Int) + d) = (h.cursor : Int) + d :=
    toI64_eq_self _ hlo hhi
  constructor
  · intro hneg
    simp [seek, ht, hneg]
  · intro hpos
    simp [seek, ht, not_lt.mpr hpos]

/-- Witness for C3: from cursor 0, SeekRelative(-1) fails with
InvalidArgument and the cursor stays 0. -/
theorem c3_relative_seek_spec_witness :
    seek ⟨0x50, 32768, 0⟩ (.current (-1)) =
      (.error ⟨.invalidInput, "Invalid argument (position would be negative)"⟩,
       ⟨0x50, 32768, 0⟩) :=
  (c3_relative_seek_spec ⟨0x50, 32768, 0⟩ (-1) (by decide) (by decide)).1 (by decide)

/-- C4: the claim says every absolute seek with p ≥ capacity_bytes fails
with OutOfRange.  The boundary cases hold (p = capacity fails, p =
capacity - 1 succeeds), but the code casts the u64 position to i64
before the bound check, so p = 2^63 (≥ capacity) wraps negative, passes
the check, and succeeds with cursor = 2^63 mod 2^16 = 0. -/
theorem c4_absolute_seek_wraps_at_2_63 :
    seek ⟨0x50, 32768, 0⟩ (.start 9223372036854775808) = (.ok 0, ⟨0x50, 32768, 0⟩) ∧
    (seek ⟨0x50, 32768, 0⟩ (.start 32768)).1 =
      .error ⟨.unexpectedEof, "Cannot seek past device memory size"⟩ ∧
    seek ⟨0x50, 32768, 0⟩ (.start 32767) = (.ok 32767, ⟨0x50, 32768, 32767⟩) := by
  refine ⟨by decide, by decide, by decide⟩

/-- C5: for every 3-byte identification response with second byte `b1`,
auto-detected construction derives the capacity 2 ^ (b1 mod 16) * 1024
bytes, i.e. 2 to the low nibble of byte 1, times 1024 (the u32
arithmetic of the source cannot overflow since the nibble is < 16). -/
theorem c5_capacity_derivation (b0 b1 b2 device_addr : Nat) (bus : I2CBus)
    (hbus : bus.busWriteRead (0xF8 >>> 1) [(device_addr <<< 1) % 256] 3 = .ok [b0, b1, b2]) :
    (new bus device_addr none).1 = .ok ⟨device_addr, 2 ^ (b1 % 16) * 1024, 0⟩ := by
  have hsz : ((1 <<< (b1 % 16)) * 1024) % 4294967296 = 2 ^ (b1 % 16) * 1024 := by
    have h1 : (1 : Nat) <<< (b1 % 16) = 2 ^ (b1 % 16) := by
      rw [Nat.shiftLeft_eq, Nat.one_mul]
    rw [h1]
    apply Nat.mod_eq_of_lt
    have h2 : 2 ^ (b1 % 16) ≤ 32768 := by
      calc 2 ^ (b1 % 16) ≤ 2 ^ 15 := Nat.pow_le_pow_right (by norm_num) (by omega)
        _ = 32768 := by norm_num
    omega
  have haddr : (0xF8 : Nat) >>> 1 = 0x7C := by decide
  rw [haddr] at hbus
  simp [new, read_metadata, hbus, hsz]

/-- Witness for C5: a transport reporting identification bytes
[0x04, 0xA5, 0x10] (low nibble of byte 1 is 0x5) yields a 32768-byte
device. -/
theorem c5_capacity_derivation_witness :
    (new metaBus 0x50 none).1 = .ok ⟨0x50, 32768, 0⟩ := by
  have h := c5_capacity_derivation 4 165 16 0x50 metaBus rfl
  simpa using h

/-- C6: `fram_write addr buf` issues exactly one plain write transaction
to the configured peripheral address, with payload the big-endian
address split [addr >> 8, addr mod 256] (addr mod 256 = addr & 0xFF)
immediately followed by buf; it returns buf.length on transport success
and the wrapped transport error on failure. -/
theorem c6_fram_write (self : MB85RC) (bus : I2CBus) (addr : Nat) (buf : List Nat)
    (haddr : addr < 65536) :
    (fram_write self bus addr buf).2 =
      [.wr self.device_addr ([addr >>> 8, addr % 256] ++ buf)] ∧
    (bus.busWrite self.device_addr ([addr >>> 8, addr % 256] ++ buf) = .ok () →
      (fram_write self bus addr buf).1 = .ok buf.length) ∧
    (∀ e, bus.busWrite self.device_addr ([addr >>> 8, addr % 256] ++ buf) = .error e →
      (fram_write self bus addr buf).1 = .error ⟨"I2C Error: " ++ e⟩) := by
  have hs : addr >>> 8 % 256 = addr >>> 8 := by
    rw [Nat.shiftRight_eq_div_pow]
    apply Nat.mod_eq_of_lt
    omega
  refine ⟨by simp [fram_write, hs], ?_, ?_⟩
  · intro hok
    simp only [List.cons_append, List.nil_append] at hok
    simp [fram_write, hs, hok]
  · intro e he
    simp only [List.cons_append, List.nil_append] at he
    simp [fram_write, hs, he]

/-- Witness for C6: writing [7, 9] at address 0x1234 issues the single
transaction with payload [0x12, 0x34, 7, 9] and returns 2. -/
theorem c6_fram_write_witness :
    (fram_write ⟨0x50, 32768, 0⟩ okBus 0x1234 [7, 9]).2 = [.wr 0x50 [0x12, 0x34, 7, 9]] ∧
    (fram_write ⟨0x50, 32768, 0⟩ okBus 0x1234 [7, 9]).1 = .ok 2 := by
  have h := c6_fram_write ⟨0x50, 32768, 0⟩ okBus 0x1234 [7, 9] (by decide)
  exact ⟨h.1, h.2.1 rfl⟩

/-- C7: the identification query issues exactly one combined
write-then-read transaction to the reserved address 0x7C = 0xF8 >> 1,
writing the single byte p << 1 (p is the 7-bit peripheral address) and
reading 3 bytes; on success it returns those 3 bytes, on failure the
wrapped transport error. -/
theorem c7_read_metadata (bus : I2CBus) (p b0 b1 b2 : Nat) (hp : p < 128) :
    (read_metadata bus p).2 = [.writeRead 0x7C [p <<< 1] 3] ∧
    (bus.busWriteRead 0x7C [p <<< 1] 3 = .ok [b0, b1, b2] →
      (read_metadata bus p).1 = .ok (b0, b1, b2)) ∧
    (∀ e, bus.busWriteRead 0x7C [p <<< 1] 3 = .error e →
      (read_metadata bus p).1 = .error ⟨"I2C Error: " ++ e⟩) := by
  have haddr : (0xF8 : Nat) >>> 1 = 0x7C := by decide
  have hs : (p <<< 1) % 256 = p <<< 1 := by
    apply Nat.mod_eq_of_lt
    rw [Nat.shiftLeft_eq, pow_one]
    omega
  refine ⟨by simp [read_metadata, haddr, hs], ?_, ?_⟩
  · intro hok
    simp [read_metadata, haddr, hs, hok]
  · intro e he
    simp [read_metadata, haddr, hs, he]

/-- Witness for C7: querying peripheral 0x50 on the identification
transport issues [writeRead 0x7C [0xA0] 3] and returns (4, 165, 16). -/
theorem c7_read_metadata_witness :
    (read_metadata metaBus 0x50).2 = [.writeRead 0x7C [0xA0] 3] ∧
    (read_metadata metaBus 0x50).1 = .ok (4, 165, 16) := by
  have h := c7_read_metadata metaBus 0x50 4 165 16 (by decide)
  exact ⟨h.1, h.2.1 rfl⟩

/-- C8: building with an explicit size s and connecting issues no bus
transaction at all and produces a handle whose fram_size is exactly s;
with no size supplied, identification is attempted, and its failure is
fatal to construction. -/
theorem c8_with_size_skips_identification (b : Builder) (s : Nat) (bus : I2CBus) :
    (b.with_size s).connect_i2c bus = (.ok ⟨b.device_addr, s, 0⟩, []) ∧
    fram_size ⟨b.device_addr, s, 0⟩ = s ∧
    (∀ e, bus.busWriteRead (0xF8 >>> 1) [(b.device_addr <<< 1) % 256] 3 = .error e →
      { b with device_size := none }.connect_i2c bus =
        (.error .identificationFailure,
         [.writeRead (0xF8 >>> 1) [(b.device_addr <<< 1) % 256] 3])) := by
  refine ⟨rfl, rfl, ?_⟩
  intro e he
  have haddr : (0xF8 : Nat) >>> 1 = 0x7C := by decide
  rw [haddr] at he
  simp [Builder.connect_i2c, new, read_metadata, haddr, he]

/-- Witness for C8: with_size 8192 over a failing transport still
constructs a handle of size 8192 with an empty trace, while the same
builder without a size fails construction after one identification
attempt. -/
theorem c8_with_size_skips_identification_witness :
    (Builder.make.with_size 8192).connect_i2c failBus = (.ok ⟨0x50, 8192, 0⟩, []) ∧
    Builder.make.connect_i2c failBus =
      (.error .identificationFailure, [.writeRead 0x7C [0xA0] 3]) := by
  have h := c8_with_size_skips_identification Builder.make 8192 failBus
  exact ⟨h.1, h.2.2 "NACK" rfl⟩

/-- C9: seek is atomic: every failing seek leaves the state unchanged,
and every successful seek returns exactly the new cursor value. -/
theorem c9_seek_atomicity (h : MB85RC) (pos : SeekFrom) :
    (∀ e, (seek h pos).1 = .error e → (seek h pos).2 = h) ∧
    (∀ v, (seek h pos).1 = .ok v → v = (seek h pos).2.cursor) := by
  cases pos with
  | start p =>
      by_cases hc : (h.device_size : Int) ≤ toI64 p
      · constructor <;> intro x hx <;> simp only [seek, if_pos hc] at hx ⊢ <;> simp_all
      · constructor <;> intro x hx <;> simp only [seek, if_neg hc] at hx ⊢ <;> simp_all
  | current p =>
      by_cases hc : toI64 ((h.cursor : Int) + p) < 0
      · constructor <;> intro x hx <;> simp only [seek, if_pos hc] at hx ⊢ <;> simp_all
      · constructor <;> intro x hx <;> simp only [seek, if_neg hc] at hx ⊢ <;> simp_all
  | fromEnd p =>
      by_cases hc1 : toI64 ((h.cursor : Int) + p) < 0
      · constructor <;> intro x hx <;> simp only [seek, if_pos hc1] at hx ⊢ <;> simp_all
      · by_cases hc2 : (h.device_size : Int) ≤ toI64 ((h.cursor : Int) + p)
        · constructor <;> intro x hx <;>
            simp only [seek, if_neg hc1, if_pos hc2] at hx ⊢ <;> simp_all
        · constructor <;> intro x hx <;>
            simp only [seek, if_neg hc1, if_neg hc2] at hx ⊢ <;> simp_all

/-- Witness for C9: a failing absolute seek to 40000 on a 32768-byte
device leaves the cursor at 7, and a successful absolute seek to 5
returns the new cursor value. -/
theorem c9_seek_atomicity_witness :
    (seek ⟨0x50, 32768, 7⟩ (.start 40000)).2 = ⟨0x50, 32768, 7⟩ ∧
    (5 : Nat) = (seek ⟨0x50, 32768, 7⟩ (.start 5)).2.cursor := by
  refine ⟨(c9_seek_atomicity ⟨0x50, 32768, 7⟩ (.start 40000)).1
    ⟨.unexpectedEof, "Cannot seek past device memory size"⟩ (by decide),
    (c9_seek_atomicity ⟨0x50, 32768, 7⟩ (.start 5)).2 5 (by decide)⟩

/-- C10: peripheral address and capacity are fixed: seek preserves both
(mutating at most the cursor), stream read/write return the state
completely unchanged, flush always succeeds with no transaction, and
fram_size returns the stored capacity. -/
theorem c10_only_cursor_mutated (h : MB85RC) (pos : SeekFrom) (bus : I2CBus)
    (n : Nat) (buf : List Nat) :
    (seek h pos).2.device_addr = h.device_addr ∧
    (seek h pos).2.device_size = h.device_size ∧
    (stream_read h bus n).1.2 = h ∧
    (stream_write h bus buf).1.2 = h ∧
    flush h = ((.ok (), h), []) ∧
    fram_size h = h.device_size := by
  refine ⟨?_, ?_, rfl, rfl, rfl, rfl⟩ <;>
    (cases pos <;> simp only [seek] <;> (repeat' split) <;> rfl)

end Mb85rc
